import Mathlib

/-!
Shallow embedding of the IBD screener engine (`ibd_screeners.py`).

Python floats are modelled by `ℚ`; `None` by `Option`; the read-only
database (`IBDDatabase`) by a structure of lookup functions.  Python's
`round(x, 2)` is modelled as round-half-to-even at two decimals, the
documented behaviour of `round` on floats.
-/

set_option maxRecDepth 1000000

namespace IBD

/-- One daily price bar: `{date, open, close, volume}`. -/
structure Bar where
  date : Nat
  openPrice : ℚ
  close : ℚ
  volume : ℚ
deriving DecidableEq

/-- A precomputed rating row, as stored upstream.  Every field may be `NULL`. -/
structure Rating where
  rs_rating : Option ℚ
  comp_rating : Option ℚ
  ad_rating : Option String
  price_vs_52w_high : Option ℚ
deriving DecidableEq

/-- A company profile row; `sector` / `industry` / `market_cap` may be missing. -/
structure CompanyProfile where
  sector : Option String
  industry : Option String
  market_cap : Option ℚ
deriving DecidableEq

/-- Per-ticker EPS components. -/
structure EPSComponents where
  eps_growth_last_qtr : Option ℚ
deriving DecidableEq

/-- One row of the sector-rotation table. -/
structure RotationRow where
  industry : String
  weekly_rs : ℚ
  monthly_rs : ℚ
deriving DecidableEq

/-- The read-only data-access interface (`self.db`).  `price_history t d`
is `db.get_price_history(t, days=d)`: the list of bars the store returns for
a `d`-day lookback, oldest first, or `none` for an unknown ticker. -/
structure DB where
  price_history : String → Nat → Option (List Bar)
  all_tickers : List String
  get_rating : String → Option Rating
  all_ratings : List (String × Rating)
  get_company_profile : String → Option CompanyProfile
  eps_components : String → Option EPSComponents

/-- The trailing `n` elements of a list (`xs[-n:]`). -/
def lastN (n : Nat) (l : List α) : List α := l.drop (l.length - n)

/-- Sum of a rational list. -/
def sumQ (l : List ℚ) : ℚ := l.foldr (· + ·) 0

/-- `np.mean(xs[-n:])`. -/
def meanLast (n : Nat) (l : List ℚ) : ℚ := sumQ (lastN n l) / (n : ℚ)

/-- `xs[-k]` for `1 ≤ k ≤ len xs` (0 outside that range, but every use in
the source is guarded by a length test). -/
def nthFromEnd (k : Nat) (l : List ℚ) : ℚ := (l.drop (l.length - k)).headD 0

/-- Round to the nearest integer, ties to the even integer (Python's
`round` on floats). -/
def roundHalfEven (x : ℚ) : ℤ :=
  if x - ⌊x⌋ < 1/2 then ⌊x⌋
  else if 1/2 < x - ⌊x⌋ then ⌊x⌋ + 1
  else if ⌊x⌋ % 2 = 0 then ⌊x⌋ else ⌊x⌋ + 1

/-- Python's `round(x, 2)`. -/
def round2 (x : ℚ) : ℚ := (roundHalfEven (x * 100) : ℚ) / 100

/-- `needle in hay` on Python strings (substring test). -/
def containsStr (hay needle : String) : Bool := (hay.splitOn needle).length != 1

/-- `get_price_metrics`: requires ≥2 bars from a 180-day window. -/
structure PriceMetrics where
  price : ℚ
  pct_change_1d : ℚ
  change_from_open : ℚ
  pct_1m : Option ℚ
  pct_3m : Option ℚ
  pct_6m : Option ℚ
deriving DecidableEq

def get_price_metrics (db : DB) (ticker : String) : Option PriceMetrics :=
  match db.price_history ticker 180 with
  | none => none
  | some bars =>
    if bars.length < 2 then none
    else
      let close := bars.map Bar.close
      let openP := bars.map Bar.openPrice
      some
        { price := nthFromEnd 1 close
          pct_change_1d :=
            if nthFromEnd 2 close ≠ 0 then
              (nthFromEnd 1 close - nthFromEnd 2 close) / nthFromEnd 2 close * 100
            else 0
          change_from_open :=
            if nthFromEnd 1 openP ≠ 0 then
              (nthFromEnd 1 close - nthFromEnd 1 openP) / nthFromEnd 1 openP * 100
            else 0
          pct_1m :=
            if 21 ≤ close.length ∧ nthFromEnd 21 close ≠ 0 then
              some ((nthFromEnd 1 close - nthFromEnd 21 close) / nthFromEnd 21 close * 100)
            else none
          pct_3m :=
            if 63 ≤ close.length ∧ nthFromEnd 63 close ≠ 0 then
              some ((nthFromEnd 1 close - nthFromEnd 63 close) / nthFromEnd 63 close * 100)
            else none
          pct_6m :=
            if 126 ≤ close.length ∧ nthFromEnd 126 close ≠ 0 then
              some ((nthFromEnd 1 close - nthFromEnd 126 close) / nthFromEnd 126 close * 100)
            else none }

/-- `get_volume_metrics`: requires ≥90 bars from a 100-day window.
Volumes are reported in thousands. -/
structure VolumeMetrics where
  avg_vol_50 : ℚ
  avg_vol_90 : ℚ
  current_volume : ℚ
  vol_change_pct : ℚ
  rel_volume : ℚ
deriving DecidableEq

def get_volume_metrics (db : DB) (ticker : String) : Option VolumeMetrics :=
  match db.price_history ticker 100 with
  | none => none
  | some bars =>
    if bars.length < 90 then none
    else
      let volume := bars.map Bar.volume
      let avg50 := meanLast 50 volume
      let avg90 := meanLast 90 volume
      let cur := nthFromEnd 1 volume
      some
        { avg_vol_50 := avg50 / 1000
          avg_vol_90 := avg90 / 1000
          current_volume := cur / 1000
          vol_change_pct := if 0 < avg50 then (cur - avg50) / avg50 * 100 else 0
          rel_volume := if 0 < avg50 then cur / avg50 else 0 }

/-- `get_moving_averages`: requires ≥200 bars from a 250-day window. -/
structure MAData where
  ma10 : Option ℚ
  ma21 : Option ℚ
  ma50 : Option ℚ
  ma150 : Option ℚ
  ma200 : Option ℚ
  price : ℚ
deriving DecidableEq

def get_moving_averages (db : DB) (ticker : String) : Option MAData :=
  match db.price_history ticker 250 with
  | none => none
  | some bars =>
    if bars.length < 200 then none
    else
      let close := bars.map Bar.close
      some
        { ma10 := if 10 ≤ close.length then some (meanLast 10 close) else none
          ma21 := if 21 ≤ close.length then some (meanLast 21 close) else none
          ma50 := if 50 ≤ close.length then some (meanLast 50 close) else none
          ma150 := if 150 ≤ close.length then some (meanLast 150 close) else none
          ma200 := if 200 ≤ close.length then some (meanLast 200 close) else none
          price := nthFromEnd 1 close }

/-- `get_price_vs_50ma`.  A zero 50-day average raises `ZeroDivisionError`
in the source, caught by the bare `except` and turned into `None`. -/
def get_price_vs_50ma (db : DB) (ticker : String) : Option ℚ :=
  match get_moving_averages db ticker with
  | none => none
  | some ma =>
    match ma.ma50 with
    | none => none
    | some m50 => if m50 = 0 then none else some ((ma.price - m50) / m50 * 100)

/-- The `pd.merge(..., on='date', how='inner')` of the two series, as
(benchmark close, target close) pairs in benchmark order.  Dates are unique
per series in the data model, so the first match is the only one. -/
def mergeByDate (bench target : List Bar) : List (ℚ × ℚ) :=
  bench.filterMap fun b =>
    match target.find? (fun tb => tb.date == b.date) with
    | some tb => some (b.close, tb.close)
    | none => none

/-- `calculate_relative_strength`. -/
def calculate_relative_strength (benchmark_prices target_prices : Option (List Bar))
    (days : Nat) : Option (List ℚ) :=
  match benchmark_prices, target_prices with
  | some bl, some tl =>
    let merged := mergeByDate bl tl
    if merged.length = 0 then none
    else
      let merged := if days < merged.length then lastN days merged else merged
      if merged.length < days then none
      else if merged.any (fun p => p.1 == 0) then none
      else some (merged.map fun p => p.2 / p.1)
  | _, _ => none

/-- `calculate_rs_sts_percentile`. -/
def calculate_rs_sts_percentile (rs_values : Option (List ℚ)) : ℚ :=
  match rs_values with
  | none => 0
  | some l =>
    if l.length = 0 then 0
    else
      let latest := l.getLast?.getD 0
      round2 (((l.countP fun v => decide (v ≤ latest)) : ℚ) / (l.length : ℚ) * 100)

/-- `get_rs_sts_percentile`. -/
def get_rs_sts_percentile (db : DB) (ticker benchmark : String) : Option ℚ :=
  match db.price_history benchmark 30, db.price_history ticker 30 with
  | some bp, some tp =>
    if bp.length < 25 ∨ tp.length < 25 then none
    else
      match calculate_relative_strength (some bp) (some tp) 25 with
      | none => none
      | some rs => some (calculate_rs_sts_percentile (some rs))
  | _, _ => none

/-- `check_rs_line_new_high`. -/
def check_rs_line_new_high (db : DB) (ticker : String) : Bool :=
  match db.get_rating ticker with
  | none => false
  | some r =>
    match r.price_vs_52w_high with
    | none => false
    | some p => decide (-5 ≤ p)

/-! Screener predicate building blocks.  In the source every threshold test
is `if v is None or v < c: continue`, and every sub-computation that comes
back `None` (or raises, under the per-ticker `except`) makes the ticker
fail: absence of the looked-up value fails the test. -/

/-- Evaluate a test on a present value; an absent value fails. -/
def onSome (o : Option α) (f : α → Bool) : Bool :=
  match o with
  | some a => f a
  | none => false

/-- Present and at least `c`. -/
def optGe (o : Option ℚ) (c : ℚ) : Bool :=
  onSome o fun v => decide (c ≤ v)

/-- `ma_data['10ma'] > ma_data['21ma'] > ma_data['50ma']` (a `None` operand
would raise `TypeError`, caught by the per-ticker `except`). -/
def maGt3 (a b c : Option ℚ) : Bool :=
  match a, b, c with
  | some x, some y, some z => decide (y < x) && decide (z < y)
  | _, _, _ => false

/-! `screener_momentum_97`.  Python sorts `dict.items()` with the stable
`sorted(..., key=value)`; `sortByVal` is a stable ascending insertion sort
over (ticker, value) pairs. -/

def sortedInsert (x : String × ℚ) : List (String × ℚ) → List (String × ℚ)
  | [] => [x]
  | y :: ys => if y.2 < x.2 then y :: sortedInsert x ys else x :: y :: ys

def sortByVal : List (String × ℚ) → List (String × ℚ)
  | [] => []
  | x :: xs => sortedInsert x (sortByVal xs)

/-- `calc_percentile_ranks` plus the `rank.get(ticker, 0)` lookup: the
percentile `(idx+1)/total*100` of `t`'s position in the ascending sort. -/
def percentile_ranks (items : List (String × ℚ)) (t : String) : ℚ :=
  let sorted := sortByVal items
  match sorted.findIdx? (fun x => x.1 == t) with
  | some idx => (((idx : ℚ) + 1) / (sorted.length : ℚ)) * 100
  | none => 0

/-- One ticker's `performance_data` entry: present exactly when all of the
1M/3M/6M changes are present. -/
def momEntry (db : DB) (t : String) : Option (String × ℚ × ℚ × ℚ) :=
  match get_price_metrics db t with
  | none => none
  | some pm =>
    match pm.pct_1m, pm.pct_3m, pm.pct_6m with
    | some a, some b, some c => some (t, a, b, c)
    | _, _, _ => none

/-- `performance_data`: the tickers having all of 1M/3M/6M changes, with
those three values, in universe order. -/
def momEntries (db : DB) : List (String × ℚ × ℚ × ℚ) :=
  db.all_tickers.filterMap (momEntry db)

def momRank1m (db : DB) (t : String) : ℚ :=
  percentile_ranks ((momEntries db).map fun x => (x.1, x.2.1)) t

def momRank3m (db : DB) (t : String) : ℚ :=
  percentile_ranks ((momEntries db).map fun x => (x.1, x.2.2.1)) t

def momRank6m (db : DB) (t : String) : ℚ :=
  percentile_ranks ((momEntries db).map fun x => (x.1, x.2.2.2)) t

/-- `screener_momentum_97`. -/
def screener_momentum_97 (db : DB) : List String :=
  ((momEntries db).map fun x => x.1).filter fun t =>
    decide (97 ≤ momRank1m db t) && decide (97 ≤ momRank3m db t) &&
      decide (97 ≤ momRank6m db t)

/-- The per-ticker predicate of `screener_explosive_eps_growth`. -/
def explosivePred (db : DB) (t : String) (r : Rating) : Bool :=
  optGe r.rs_rating 80 &&
  optGe (get_rs_sts_percentile db t ("SPY")) 80 &&
  onSome (db.eps_components t) (fun e => optGe e.eps_growth_last_qtr 100) &&
  onSome (get_volume_metrics db t) (fun vm => decide (100 ≤ vm.avg_vol_50)) &&
  optGe (get_price_vs_50ma db t) 0

/-- `screener_explosive_eps_growth`. -/
def screener_explosive_eps_growth (db : DB) : List String :=
  (db.all_ratings.filter fun p => explosivePred db p.1 p.2).map Prod.fst

/-- The per-ticker predicate of `screener_up_on_volume`. -/
def upOnVolumePred (db : DB) (t : String) (r : Rating) : Bool :=
  optGe r.rs_rating 80 &&
  optGe (get_rs_sts_percentile db t ("SPY")) 80 &&
  onSome r.ad_rating (fun a => decide (a ∈ [("A" : String), ("B" : String), ("C" : String)])) &&
  onSome (get_price_metrics db t)
    (fun pm => decide (0 ≤ pm.pct_change_1d) && decide (10 ≤ pm.price)) &&
  onSome (get_volume_metrics db t)
    (fun vm => decide (100 ≤ vm.avg_vol_50) && decide (20 ≤ vm.vol_change_pct)) &&
  onSome (db.get_company_profile t)
    (fun p => onSome p.market_cap (fun mc => decide (250 ≤ mc / 1000000))) &&
  onSome (db.eps_components t) (fun e => optGe e.eps_growth_last_qtr 20)

/-- `screener_up_on_volume`. -/
def screener_up_on_volume (db : DB) : List String :=
  (db.all_ratings.filter fun p => upOnVolumePred db p.1 p.2).map Prod.fst

/-- The sector exclusion of `screener_top_2_percent_rs`: the check runs only
when a profile is present (`if profile:`); an absent profile skips it. -/
def top2SectorOk (db : DB) (t : String) : Bool :=
  match db.get_company_profile t with
  | some p =>
    let sector := (p.sector.getD ("")).toLower
    !(containsStr sector ("healthcare") || containsStr sector ("medical"))
  | none => true

/-- The per-ticker predicate of `screener_top_2_percent_rs`. -/
def top2Pred (db : DB) (t : String) (r : Rating) : Bool :=
  optGe r.rs_rating 98 &&
  optGe (get_rs_sts_percentile db t ("SPY")) 80 &&
  onSome (get_moving_averages db t) (fun ma => maGt3 ma.ma10 ma.ma21 ma.ma50) &&
  onSome (get_volume_metrics db t)
    (fun vm => decide (100 ≤ vm.avg_vol_50) && decide (100 ≤ vm.current_volume)) &&
  top2SectorOk db t

/-- `screener_top_2_percent_rs`. -/
def screener_top_2_percent_rs (db : DB) : List String :=
  (db.all_ratings.filter fun p => top2Pred db p.1 p.2).map Prod.fst

/-- The per-ticker predicate of `screener_4_percent_bullish_yesterday`. -/
def bullish4Pred (db : DB) (t : String) : Bool :=
  onSome (get_price_metrics db t)
    (fun pm =>
      decide (1 ≤ pm.price) && decide (4 < pm.pct_change_1d) &&
        decide (0 < pm.change_from_open)) &&
  onSome (get_volume_metrics db t)
    (fun vm =>
      decide (100 < vm.current_volume) && decide (1 < vm.rel_volume) &&
        decide (100 < vm.avg_vol_90)) &&
  onSome (db.get_company_profile t)
    (fun p => onSome p.market_cap (fun mc => decide (250 < mc / 1000000))) &&
  optGe (get_rs_sts_percentile db t ("SPY")) 80

/-- `screener_4_percent_bullish_yesterday`. -/
def screener_4_percent_bullish_yesterday (db : DB) : List String :=
  db.all_tickers.filter fun t => bullish4Pred db t

/-- The per-ticker predicate of `screener_healthy_chart_watchlist`. -/
def healthyPred (db : DB) (t : String) (r : Rating) : Bool :=
  optGe r.rs_rating 90 &&
  optGe r.comp_rating 80 &&
  onSome r.ad_rating (fun a => decide (a ∈ [("A" : String), ("B" : String)])) &&
  onSome (get_moving_averages db t)
    (fun ma => maGt3 ma.ma10 ma.ma21 ma.ma50 && maGt3 ma.ma50 ma.ma150 ma.ma200) &&
  check_rs_line_new_high db t &&
  onSome (get_volume_metrics db t) (fun vm => decide (100 ≤ vm.avg_vol_50))

/-- `screener_healthy_chart_watchlist`. -/
def screener_healthy_chart_watchlist (db : DB) : List String :=
  (db.all_ratings.filter fun p => healthyPred db p.1 p.2).map Prod.fst

/-! `_get_industry_group_quadrant`. -/

inductive Quadrant where
  | Strong
  | Improving
  | Weakening
  | Weak
deriving DecidableEq

/-- The cross-sectional weekly percentile of a value within the table. -/
def weeklyPct (table : List RotationRow) (v : ℚ) : ℚ :=
  ((table.countP fun r => decide (r.weekly_rs ≤ v)) : ℚ) / (table.length : ℚ) * 100

/-- The cross-sectional monthly percentile of a value within the table. -/
def monthlyPct (table : List RotationRow) (v : ℚ) : ℚ :=
  ((table.countP fun r => decide (r.monthly_rs ≤ v)) : ℚ) / (table.length : ℚ) * 100

/-- `_get_industry_group_quadrant`: the source takes the rotation table (a
possibly-`None` DataFrame) as an argument. -/
def get_industry_group_quadrant (db : DB) (ticker : String)
    (sector_rotation_df : Option (List RotationRow)) : Option Quadrant :=
  match sector_rotation_df with
  | none => none
  | some table =>
    if table.length = 0 then none
    else
      match db.get_company_profile ticker with
      | none => none
      | some profile =>
        match profile.industry with
        | none => none
        | some industry =>
          if industry = "" then none
          else
            match table.filter fun r => r.industry == industry with
            | [] => none
            | row :: _ =>
              let wp := weeklyPct table row.weekly_rs
              let mp := monthlyPct table row.monthly_rs
              some
                (if 50 ≤ wp ∧ 50 ≤ mp then Quadrant.Strong
                 else if 50 ≤ wp then Quadrant.Improving
                 else if 50 ≤ mp then Quadrant.Weakening
                 else Quadrant.Weak)

/-! Concrete database snapshots used to instantiate the theorems below. -/

/-- 25 bars, dates 0..24, close 1. -/
def flatBars25 : List Bar := (List.range 25).map fun i => ⟨i, 1, 1, 200000⟩

/-- 25 bars, dates 0..24, close 2. -/
def targBars25 : List Bar := (List.range 25).map fun i => ⟨i, 1, 2, 1⟩

/-- 25 bars on disjoint dates 100..124. -/
def targBarsOff25 : List Bar := (List.range 25).map fun i => ⟨i + 100, 1, 2, 1⟩

/-- 25 bars on dates 5..29: a 20-day overlap with dates 0..24. -/
def targBarsShift25 : List Bar := (List.range 25).map fun i => ⟨i + 5, 1, 2, 1⟩

/-- 200 bars with strictly increasing closes (so MA10 > MA21 > MA50). -/
def risingBars200 : List Bar := (List.range 200).map fun i => ⟨i, 1, (i : ℚ) + 1, 200000⟩

/-- 90 bars with volume 200000. -/
def volBars90 : List Bar := (List.range 90).map fun i => ⟨i, 1, 1, 200000⟩

/-- 150 bars: enough for a 50-day average but not for a 200-day one. -/
def bars150 : List Bar := (List.range 150).map fun i => ⟨i, 1, 1, 1⟩

/-- A snapshot whose only ticker has rs_rating 98, a flat 25-day ratio
series against SPY (RS STS% = 100), rising moving averages, ample volume —
and NO company profile. -/
def dbC1 : DB where
  price_history := fun t d =>
    if t = ("T") then
      if d = 30 then some flatBars25
      else if d = 250 then some risingBars200
      else if d = 100 then some volBars90
      else none
    else if t = ("SPY") then (if d = 30 then some flatBars25 else none)
    else none
  all_tickers := [("T")]
  get_rating := fun _ => none
  all_ratings := [(("T"), ⟨some 98, none, none, none⟩)]
  get_company_profile := fun _ => none
  eps_components := fun _ => none

/-- A snapshot whose price store returns a 150-bar history for every query. -/
def dbC2 : DB where
  price_history := fun _ _ => some bars150
  all_tickers := [("T")]
  get_rating := fun _ => none
  all_ratings := []
  get_company_profile := fun _ => none
  eps_components := fun _ => none

/-- Ticker A's two most recent daily bars: close goes from 1200/101 to 12,
a +1% one-day change with latest price $12. -/
def barsA2 : List Bar := [⟨0, 1, 1200/101, 1⟩, ⟨1, 12, 12, 1⟩]

/-- Ticker A's 90 volume bars: 50-day average volume exactly 150000 with a
current volume of 187500, +25% versus the average. -/
def volBarsA90 : List Bar :=
  (List.range 90).map fun i =>
    ⟨i, 1, 1, if i = 40 then 112500 else if i = 89 then 187500 else 150000⟩

/-- Ticker A's 25 bars against a flat benchmark: the ratio series is four 2s
then twenty-one 1s, so RS STS% = 21/25*100 = 84. -/
def rsBarsA25 : List Bar := (List.range 25).map fun i => ⟨i, 1, if i < 4 then 2 else 1, 1⟩

/-- The Up-on-Volume scenario: A passes every condition, B fails the RS
Rating threshold (50 < 80), C has no RS Rating at all. -/
def dbUp : DB where
  price_history := fun t d =>
    if t = ("A") then
      if d = 180 then some barsA2
      else if d = 100 then some volBarsA90
      else if d = 30 then some rsBarsA25
      else none
    else if t = ("SPY") then (if d = 30 then some flatBars25 else none)
    else none
  all_tickers := [("A"), ("B"), ("C")]
  get_rating := fun _ => none
  all_ratings :=
    [(("A"), ⟨some 85, none, some ("B"), none⟩),
     (("B"), ⟨some 50, none, some ("A"), none⟩),
     (("C"), ⟨none, none, some ("A"), none⟩)]
  get_company_profile := fun t =>
    if t = ("A") then some ⟨some ("Technology"), some ("Software"), some 300000000⟩ else none
  eps_components := fun t => if t = ("A") then some ⟨some 30⟩ else none

/-- 126 bars with constant close 1: all momentum changes are 0. -/
def barsConst126 : List Bar := (List.range 126).map fun i => ⟨i, 1, 1, 1⟩

/-- 126 bars with strictly increasing closes: all momentum changes positive. -/
def barsRise126 : List Bar := (List.range 126).map fun i => ⟨i, 1, (i : ℚ) + 1, 1⟩

/-- A two-ticker momentum universe: B outranks A on every horizon, so B's
three percentile ranks are 100 and A's are 50. -/
def dbMom : DB where
  price_history := fun t d =>
    if d = 180 then
      if t = ("A") then some barsConst126
      else if t = ("B") then some barsRise126
      else none
    else none
  all_tickers := [("A"), ("B")]
  get_rating := fun _ => none
  all_ratings := []
  get_company_profile := fun _ => none
  eps_components := fun _ => none

/-- A rotation table in which the ticker's industry sits exactly on the
50/50 boundary. -/
def tableQ : List RotationRow := [⟨("Software"), 1, 1⟩, ⟨("Retail"), 2, 2⟩]

/-- A snapshot whose only ticker belongs to the boundary industry. -/
def dbQ : DB where
  price_history := fun _ _ => none
  all_tickers := [("T")]
  get_rating := fun _ => none
  all_ratings := []
  get_company_profile := fun t =>
    if t = ("T") then some ⟨none, some ("Software"), none⟩ else none
  eps_components := fun _ => none

/-- The empty snapshot. -/
def emptyDB : DB where
  price_history := fun _ _ => none
  all_tickers := []
  get_rating := fun _ => none
  all_ratings := []
  get_company_profile := fun _ => none
  eps_components := fun _ => none

/-- The long series refuting the implicit positivity claim: 39999 copies of
2 followed by a single 1. -/
def longFlatSeries : List ℚ := List.replicate 39999 2 ++ [1]

/-! Bridging lemmas between the Bool predicate pipeline and its
propositional reading. -/

theorem onSome_eq_true {α : Type} {o : Option α} {f : α → Bool} :
    onSome o f = true ↔ ∃ a, o = some a ∧ f a = true := by
  cases o <;> simp [onSome]

theorem optGe_eq_true {o : Option ℚ} {c : ℚ} :
    optGe o c = true ↔ ∃ v, o = some v ∧ c ≤ v := by
  cases o <;> simp [optGe, onSome]

theorem maGt3_eq_true {a b c : Option ℚ} :
    maGt3 a b c = true ↔
      ∃ x y z, a = some x ∧ b = some y ∧ c = some z ∧ y < x ∧ z < y := by
  cases a <;> cases b <;> cases c <;> simp [maGt3, and_assoc]

theorem top2SectorOk_eq_true {db : DB} {t : String} :
    top2SectorOk db t = true ↔
      ∀ p, db.get_company_profile t = some p →
        containsStr ((p.sector.getD ("")).toLower) ("healthcare") = false ∧
        containsStr ((p.sector.getD ("")).toLower) ("medical") = false := by
  cases h : db.get_company_profile t <;> simp [top2SectorOk, h]

theorem mem_screenerList {l : List (String × Rating)} {p : String → Rating → Bool}
    {t : String} :
    (t ∈ (l.filter fun x => p x.1 x.2).map Prod.fst) ↔
      ∃ r, (t, r) ∈ l ∧ p t r = true := by
  simp only [List.mem_map, List.mem_filter]
  constructor
  · rintro ⟨⟨a, b⟩, ⟨hm, hp⟩, rfl⟩
    exact ⟨b, hm, hp⟩
  · rintro ⟨r, hm, hp⟩
    exact ⟨(t, r), ⟨hm, hp⟩, rfl⟩

/-! Facts about the two-decimal rounding. -/

theorem le_roundHalfEven (x : ℚ) : ⌊x⌋ ≤ roundHalfEven x := by
  unfold roundHalfEven
  split_ifs <;> omega

theorem roundHalfEven_le_add_one (x : ℚ) : roundHalfEven x ≤ ⌊x⌋ + 1 := by
  unfold roundHalfEven
  split_ifs <;> omega

theorem roundHalfEven_mono {x y : ℚ} (h : x ≤ y) : roundHalfEven x ≤ roundHalfEven y := by
  rcases lt_or_eq_of_le (Int.floor_le_floor h) with hf | hf
  · calc roundHalfEven x ≤ ⌊x⌋ + 1 := roundHalfEven_le_add_one x
      _ ≤ ⌊y⌋ := by omega
      _ ≤ roundHalfEven y := le_roundHalfEven y
  · unfold roundHalfEven
    rw [hf]
    split_ifs <;> first | omega | linarith

theorem one_le_roundHalfEven {x : ℚ} (hx : 1/2 < x) : 1 ≤ roundHalfEven x := by
  have h0 : (0 : ℤ) ≤ ⌊x⌋ := Int.floor_nonneg.mpr (by linarith)
  rcases le_or_lt 1 ⌊x⌋ with h1 | h1
  · have := le_roundHalfEven x
    omega
  · have hf0 : ⌊x⌋ = 0 := by omega
    unfold roundHalfEven
    rw [hf0]
    have hnot : ¬(x - ((0 : ℤ) : ℚ) < 1/2) := by push_cast; linarith
    rw [if_neg hnot, if_pos (by push_cast; linarith)]
    omega

theorem round2_mono {x y : ℚ} (h : x ≤ y) : round2 x ≤ round2 y := by
  unfold round2
  have h1 := roundHalfEven_mono (show x * 100 ≤ y * 100 by linarith)
  have h2 : ((roundHalfEven (x * 100) : ℚ)) ≤ ((roundHalfEven (y * 100) : ℚ)) := by
    exact_mod_cast h1
  linarith

theorem round2_pos {x : ℚ} (h : 1/200 < x) : 0 < round2 x := by
  unfold round2
  have h1 : 1 ≤ roundHalfEven (x * 100) := one_le_roundHalfEven (by linarith)
  have h2 : (1 : ℚ) ≤ ((roundHalfEven (x * 100) : ℚ)) := by exact_mod_cast h1
  linarith

theorem round2_hundred : round2 100 = 100 := by
  norm_num [round2, roundHalfEven]

/-- On a non-empty list the percentile is the rounded inclusive-count ratio. -/
theorem rs_sts_of_ne_nil {l : List ℚ} (h : l ≠ []) :
    calculate_rs_sts_percentile (some l) =
      round2 (((l.countP fun v => decide (v ≤ l.getLast?.getD 0)) : ℚ) /
        (l.length : ℚ) * 100) := by
  simp [calculate_rs_sts_percentile, h]

/-- C5: `rsSTSPercentile` returns, for a non-empty sequence, (count of
elements ≤ the last element)/length * 100 rounded to 2 decimals; an empty
sequence yields 0, not absent; a flat (all-equal) series yields 100;
appending a value strictly greater than all prior values yields 100; and
appending a value strictly smaller than all prior values yields 1/N*100
rounded to 2 decimals for the resulting N-length series. -/
theorem C5_rs_sts_percentile :
    calculate_rs_sts_percentile none = 0 ∧
    calculate_rs_sts_percentile (some []) = 0 ∧
    (∀ l : List ℚ, l ≠ [] →
      calculate_rs_sts_percentile (some l) =
        round2 (((l.countP fun v => decide (v ≤ l.getLast?.getD 0)) : ℚ) /
          (l.length : ℚ) * 100)) ∧
    (∀ (l : List ℚ) (v : ℚ), l ≠ [] → (∀ x ∈ l, x = v) →
      calculate_rs_sts_percentile (some l) = 100) ∧
    (∀ (l : List ℚ) (v : ℚ), (∀ x ∈ l, x < v) →
      calculate_rs_sts_percentile (some (l ++ [v])) = 100) ∧
    (∀ (l : List ℚ) (v : ℚ), (∀ x ∈ l, v < x) →
      calculate_rs_sts_percentile (some (l ++ [v])) =
        round2 ((1 : ℚ) / ((l.length : ℚ) + 1) * 100)) := by
  refine ⟨rfl, rfl, fun l h => rs_sts_of_ne_nil h, ?_, ?_, ?_⟩
  · intro l v hl hflat
    rw [rs_sts_of_ne_nil hl]
    have hlast : l.getLast?.getD 0 = v := by
      rw [List.getLast?_eq_getLast l hl, Option.getD_some]
      exact hflat _ (List.getLast_mem hl)
    have hcount : (l.countP fun x => decide (x ≤ l.getLast?.getD 0)) = l.length := by
      rw [List.countP_eq_length]
      intro a ha
      rw [hlast]
      simp [hflat a ha]
    rw [hcount]
    have hn : ((l.length : ℚ)) ≠ 0 := by
      simp [List.length_eq_zero]
      exact hl
    rw [div_self hn, one_mul, round2_hundred]
  · intro l v hgt
    rw [rs_sts_of_ne_nil (by simp)]
    have hlast : (l ++ [v]).getLast?.getD 0 = v := by
      rw [List.getLast?_concat, Option.getD_some]
    rw [hlast]
    have hcount : ((l ++ [v]).countP fun x => decide (x ≤ v)) = (l ++ [v]).length := by
      rw [List.countP_eq_length]
      intro a ha
      rcases List.mem_append.mp ha with h | h
      · simp [le_of_lt (hgt a h)]
      · simp at h
        simp [h]
    rw [hcount]
    have hn : (((l ++ [v]).length : ℚ)) ≠ 0 := by
      simp
      positivity
    rw [div_self hn, one_mul, round2_hundred]
  · intro l v hlt
    rw [rs_sts_of_ne_nil (by simp)]
    have hlast : (l ++ [v]).getLast?.getD 0 = v := by
      rw [List.getLast?_concat, Option.getD_some]
    rw [hlast]
    have hcount : ((l ++ [v]).countP fun x => decide (x ≤ v)) = 1 := by
      rw [List.countP_append]
      have h0 : (l.countP fun x => decide (x ≤ v)) = 0 := by
        rw [List.countP_eq_zero]
        intro a ha
        simp [not_le.mpr (hlt a ha)]
      rw [h0]
      simp
    rw [hcount]
    have hlen : (((l ++ [v]).length : ℚ)) = ((l.length : ℚ)) + 1 := by
      push_cast [List.length_append]
      norm_num
    rw [hlen]
    norm_num

/-- C10 counterexample: a non-empty 40000-element ratio series on which
`rsSTSPercentile` returns exactly 0 — so a 0 result does not imply an empty
or absent input, refuting the claim as stated. -/
theorem C10_counterexample :
    longFlatSeries ≠ [] ∧ longFlatSeries.length = 40000 ∧
      calculate_rs_sts_percentile (some longFlatSeries) = 0 := by
  have hlen : longFlatSeries.length = 40000 := by
    rw [longFlatSeries, List.length_append, List.length_replicate]
    rfl
  have hne : longFlatSeries ≠ [] := by
    intro h
    rw [h] at hlen
    exact absurd hlen (by simp)
  refine ⟨hne, hlen, ?_⟩
  rw [rs_sts_of_ne_nil hne]
  have hlast : longFlatSeries.getLast?.getD 0 = 1 := by
    rw [longFlatSeries, List.getLast?_concat, Option.getD_some]
  rw [hlast]
  have hcount : (longFlatSeries.countP fun x => decide (x ≤ 1)) = 1 := by
    rw [longFlatSeries, List.countP_append, List.countP_replicate]
    norm_num
  rw [hcount, hlen]
  have harg : ((1 : ℕ) : ℚ) / ((40000 : ℕ) : ℚ) * 100 = 1/400 := by norm_num
  rw [harg]
  have hfl : ⌊(1/400 : ℚ) * 100⌋ = 0 := by
    rw [Int.floor_eq_zero_iff]
    constructor <;> norm_num
  rw [round2, roundHalfEven, hfl]
  norm_num

/-- C10 amended: for every non-empty N-length ratio series the result is at
least round(100/N, 2), because the last element satisfies the inclusive
comparison with itself; that bound (hence the result) is strictly positive
whenever N < 20000, so only for such series does a 0 result imply an empty
or absent input. -/
theorem C10_lower_bound (l : List ℚ) (h : l ≠ []) :
    round2 (100 / (l.length : ℚ)) ≤ calculate_rs_sts_percentile (some l) ∧
      (l.length < 20000 → 0 < calculate_rs_sts_percentile (some l)) := by
  rw [rs_sts_of_ne_nil h]
  have hn : (0 : ℚ) < (l.length : ℚ) := by
    have := List.length_pos.mpr h
    exact_mod_cast this
  have hc : 1 ≤ (l.countP fun v => decide (v ≤ l.getLast?.getD 0)) := by
    have hpos : 0 < (l.countP fun v => decide (v ≤ l.getLast?.getD 0)) := by
      rw [List.countP_pos]
      refine ⟨l.getLast h, List.getLast_mem h, ?_⟩
      rw [List.getLast?_eq_getLast l h, Option.getD_some]
      simp
    omega
  have hcq : (1 : ℚ) ≤ ((l.countP fun v => decide (v ≤ l.getLast?.getD 0)) : ℚ) := by
    exact_mod_cast hc
  have hineq : 100 / (l.length : ℚ) ≤
      ((l.countP fun v => decide (v ≤ l.getLast?.getD 0)) : ℚ) / (l.length : ℚ) * 100 := by
    rw [div_mul_eq_mul_div]
    exact (div_le_div_right hn).mpr (by linarith)
  refine ⟨round2_mono hineq, fun h20 => ?_⟩
  have hlt : (l.length : ℚ) < 20000 := by exact_mod_cast h20
  have hhalf : (1 : ℚ)/200 < 100 / (l.length : ℚ) := by
    rw [div_lt_div_iff (by norm_num) hn]
    linarith
  exact lt_of_lt_of_le (round2_pos hhalf) (round2_mono hineq)

/-- C10 witness: the bound applied to the one-element series `[1]`. -/
theorem C10_witness : 0 < calculate_rs_sts_percentile (some [(1 : ℚ)]) :=
  (C10_lower_bound [(1 : ℚ)] (by simp)).2 (by simp)

/-! Facts about `calculate_relative_strength`. -/

theorem calc_rs_none_of_short {bl tl : List Bar} {d : Nat}
    (h : (mergeByDate bl tl).length < d) :
    calculate_relative_strength (some bl) (some tl) d = none := by
  unfold calculate_relative_strength
  by_cases h0 : (mergeByDate bl tl).length = 0
  · simp [h0]
  · have hnd : ¬ d < (mergeByDate bl tl).length := by omega
    simp [h0, hnd, h]

theorem lastN_of_length_le {l : List α} {n : Nat} (h : l.length ≤ n) :
    lastN n l = l := by
  unfold lastN
  rw [Nat.sub_eq_zero_of_le h, List.drop_zero]

theorem lastN_length {l : List α} {n : Nat} (h : n ≤ l.length) :
    (lastN n l).length = n := by
  unfold lastN
  rw [List.length_drop]
  omega

theorem calc_rs_none_of_zero {bl tl : List Bar} {d : Nat} (hd : 0 < d)
    (hlen : d ≤ (mergeByDate bl tl).length)
    (hz : (lastN d (mergeByDate bl tl)).any (fun p => p.1 == 0) = true) :
    calculate_relative_strength (some bl) (some tl) d = none := by
  unfold calculate_relative_strength
  have h0 : ¬ (mergeByDate bl tl).length = 0 := by omega
  rcases lt_or_eq_of_le hlen with hdl | hdl
  · have hkept : ¬ (lastN d (mergeByDate bl tl)).length < d := by
      rw [lastN_length (le_of_lt hdl)]
      omega
    simp [h0, hdl, hkept, hz]
  · have heq : lastN d (mergeByDate bl tl) = mergeByDate bl tl :=
      lastN_of_length_le (by omega)
    have hnd : ¬ d < (mergeByDate bl tl).length := by omega
    rw [heq] at hz
    simp [h0, hnd, hz]

theorem calc_rs_some {bl tl : List Bar} {d : Nat} (hd : 0 < d)
    (hlen : d ≤ (mergeByDate bl tl).length)
    (hz : (lastN d (mergeByDate bl tl)).any (fun p => p.1 == 0) = false) :
    calculate_relative_strength (some bl) (some tl) d =
      some ((lastN d (mergeByDate bl tl)).map fun p => p.2 / p.1) := by
  unfold calculate_relative_strength
  have h0 : ¬ (mergeByDate bl tl).length = 0 := by omega
  rcases lt_or_eq_of_le hlen with hdl | hdl
  · have hkept : ¬ (lastN d (mergeByDate bl tl)).length < d := by
      rw [lastN_length (le_of_lt hdl)]
      omega
    simp [h0, hdl, hkept, hz]
  · have heq : lastN d (mergeByDate bl tl) = mergeByDate bl tl :=
      lastN_of_length_le (by omega)
    have hnd : ¬ d < (mergeByDate bl tl).length := by omega
    rw [heq] at hz ⊢
    simp [h0, hnd, hz]
    omega

theorem calc_rs_length {bl tl : List Bar} {d : Nat} {rs : List ℚ}
    (h : calculate_relative_strength (some bl) (some tl) d = some rs) :
    rs.length = d := by
  unfold calculate_relative_strength at h
  by_cases h0 : (mergeByDate bl tl).length = 0
  · simp [h0] at h
  · simp only [h0, if_false] at h
    by_cases hdl : d < (mergeByDate bl tl).length
    · have hkept : ¬ (lastN d (mergeByDate bl tl)).length < d := by
        rw [lastN_length (le_of_lt hdl)]
        omega
      simp only [if_pos hdl, if_neg hkept] at h
      by_cases hz : (lastN d (mergeByDate bl tl)).any (fun p => p.1 == 0) = true
      · simp [hz] at h
      · simp only [Bool.not_eq_true] at hz
        simp only [hz, if_false] at h
        cases h
        rw [List.length_map, lastN_length (le_of_lt hdl)]
    · simp only [hdl, if_false] at h
      by_cases hsh : (mergeByDate bl tl).length < d
      · simp [hsh] at h
      · by_cases hz : (mergeByDate bl tl).any (fun p => p.1 == 0) = true
        · simp [hsh, hz] at h
        · simp only [Bool.not_eq_true] at hz
          simp only [hsh, if_false, hz] at h
          cases h
          rw [List.length_map]
          omega

/-- C3: `relativeStrengthSeries` inner-joins the two series on exact date
equality, keeps only the most recent `days` joined rows, returns absent when
the joined length is less than `days` (in particular for non-overlapping
dates, or when 25 days are required of a 20-day overlap), returns absent if
a kept joined benchmark close is 0, and otherwise returns the
length-`days` sequence of ratio target_close/benchmark_close in input
(oldest-first) order; exactly 25 days of overlap gives length 25. -/
theorem C3_relative_strength :
    (∀ (bl tl : List Bar) (d : Nat), (mergeByDate bl tl).length < d →
      calculate_relative_strength (some bl) (some tl) d = none) ∧
    (∀ (bl tl : List Bar) (d : Nat), 0 < d → d ≤ (mergeByDate bl tl).length →
      ((lastN d (mergeByDate bl tl)).any (fun p => p.1 == 0) = true →
        calculate_relative_strength (some bl) (some tl) d = none) ∧
      ((lastN d (mergeByDate bl tl)).any (fun p => p.1 == 0) = false →
        calculate_relative_strength (some bl) (some tl) d =
          some ((lastN d (mergeByDate bl tl)).map fun p => p.2 / p.1))) ∧
    (∀ (bl tl : List Bar) (d : Nat) (rs : List ℚ),
      calculate_relative_strength (some bl) (some tl) d = some rs → rs.length = d) ∧
    mergeByDate flatBars25 targBarsOff25 = [] ∧
    calculate_relative_strength (some flatBars25) (some targBarsOff25) 25 = none ∧
    (mergeByDate flatBars25 targBarsShift25).length = 20 ∧
    calculate_relative_strength (some flatBars25) (some targBarsShift25) 25 = none ∧
    (mergeByDate flatBars25 targBars25).length = 25 ∧
    calculate_relative_strength (some flatBars25) (some targBars25) 25 =
      some (List.replicate 25 2) := by
  refine ⟨fun bl tl d h => calc_rs_none_of_short h,
    fun bl tl d hd hlen => ⟨fun hz => calc_rs_none_of_zero hd hlen hz,
      fun hz => calc_rs_some hd hlen hz⟩,
    fun bl tl d rs h => calc_rs_length h, ?_, ?_, ?_, ?_, ?_, ?_⟩ <;>
    with_unfolding_all rfl

/-- C2 counterexample: a 150-bar history makes `movingAverages` absent as a
whole; there is no result in which the 200-day average is absent while the
50-day one is present, so the claim fails at this input. -/
theorem C2_counterexample :
    dbC2.price_history ("T") 250 = some bars150 ∧ bars150.length = 150 ∧
      get_moving_averages dbC2 ("T") = none := by
  refine ⟨rfl, ?_, ?_⟩
  · simp [bars150]
  · with_unfolding_all rfl

/-- C2 amended: `movingAverages` requires at least 200 bars and is absent as
a whole below that; with at least 200 bars every one of the 10/21/50/150/200
day averages is present. -/
theorem C2_moving_averages (db : DB) (t : String) (bars : List Bar)
    (h : db.price_history t 250 = some bars) :
    (bars.length < 200 → get_moving_averages db t = none) ∧
    (200 ≤ bars.length →
      get_moving_averages db t =
        some { ma10 := some (meanLast 10 (bars.map Bar.close)),
               ma21 := some (meanLast 21 (bars.map Bar.close)),
               ma50 := some (meanLast 50 (bars.map Bar.close)),
               ma150 := some (meanLast 150 (bars.map Bar.close)),
               ma200 := some (meanLast 200 (bars.map Bar.close)),
               price := nthFromEnd 1 (bars.map Bar.close) }) := by
  constructor
  · intro hlt
    simp [get_moving_averages, h, hlt]
  · intro hge
    have h2 : ¬ bars.length < 200 := by omega
    simp [get_moving_averages, h, h2, List.length_map,
      show 10 ≤ bars.length by omega, show 21 ≤ bars.length by omega,
      show 50 ≤ bars.length by omega, show 150 ≤ bars.length by omega,
      show 200 ≤ bars.length by omega]

/-- C2 witness: the amended theorem applied to the 150-bar store. -/
theorem C2_witness : get_moving_averages dbC2 ("T") = none :=
  (C2_moving_averages dbC2 ("T") bars150 rfl).1 (by simp [bars150])

/-- C8: with at least 2 bars, `priceMetrics` computes the 1-day % change as
`((c[-1]-c[-2])/c[-2])*100` (0 when `c[-2]` is 0), the change-from-open from
the latest bar's open, and the 1/3/6-month changes at offsets 21/63/126 from
the end, each absent exactly when the series is shorter than the offset or
the anchor close is 0; with fewer than 2 bars (or no history) the whole
result is absent.  The embedding is total, so no input raises. -/
theorem C8_price_metrics (db : DB) (t : String) :
    (db.price_history t 180 = none → get_price_metrics db t = none) ∧
    (∀ bars, db.price_history t 180 = some bars → bars.length < 2 →
      get_price_metrics db t = none) ∧
    (∀ bars, db.price_history t 180 = some bars → 2 ≤ bars.length →
      ∃ pm, get_price_metrics db t = some pm ∧
        pm.price = nthFromEnd 1 (bars.map Bar.close) ∧
        (nthFromEnd 2 (bars.map Bar.close) = 0 → pm.pct_change_1d = 0) ∧
        (nthFromEnd 2 (bars.map Bar.close) ≠ 0 →
          pm.pct_change_1d =
            (nthFromEnd 1 (bars.map Bar.close) - nthFromEnd 2 (bars.map Bar.close)) /
              nthFromEnd 2 (bars.map Bar.close) * 100) ∧
        (nthFromEnd 1 (bars.map Bar.openPrice) = 0 → pm.change_from_open = 0) ∧
        (nthFromEnd 1 (bars.map Bar.openPrice) ≠ 0 →
          pm.change_from_open =
            (nthFromEnd 1 (bars.map Bar.close) - nthFromEnd 1 (bars.map Bar.openPrice)) /
              nthFromEnd 1 (bars.map Bar.openPrice) * 100) ∧
        (pm.pct_1m = none ↔ bars.length < 21 ∨ nthFromEnd 21 (bars.map Bar.close) = 0) ∧
        (21 ≤ bars.length → nthFromEnd 21 (bars.map Bar.close) ≠ 0 →
          pm.pct_1m = some ((nthFromEnd 1 (bars.map Bar.close) -
            nthFromEnd 21 (bars.map Bar.close)) / nthFromEnd 21 (bars.map Bar.close) * 100)) ∧
        (pm.pct_3m = none ↔ bars.length < 63 ∨ nthFromEnd 63 (bars.map Bar.close) = 0) ∧
        (63 ≤ bars.length → nthFromEnd 63 (bars.map Bar.close) ≠ 0 →
          pm.pct_3m = some ((nthFromEnd 1 (bars.map Bar.close) -
            nthFromEnd 63 (bars.map Bar.close)) / nthFromEnd 63 (bars.map Bar.close) * 100)) ∧
        (pm.pct_6m = none ↔ bars.length < 126 ∨ nthFromEnd 126 (bars.map Bar.close) = 0) ∧
        (126 ≤ bars.length → nthFromEnd 126 (bars.map Bar.close) ≠ 0 →
          pm.pct_6m = some ((nthFromEnd 1 (bars.map Bar.close) -
            nthFromEnd 126 (bars.map Bar.close)) / nthFromEnd 126 (bars.map Bar.close) * 100))) := by
  refine ⟨?_, ?_, ?_⟩
  · intro h
    simp [get_price_metrics, h]
  · intro bars h hlt
    simp [get_price_metrics, h, hlt]
  · intro bars h hge
    have h2 : ¬ bars.length < 2 := by omega
    refine ⟨_, by simp only [get_price_metrics, h, if_neg h2]; exact rfl, rfl,
      ?_, ?_, ?_, ?_, ?_, ?_, ?_, ?_, ?_, ?_⟩
    · intro h0
      dsimp only
      rw [if_neg (fun hc => hc h0)]
    · intro h0
      dsimp only
      rw [if_pos h0]
    · intro h0
      dsimp only
      rw [if_neg (fun hc => hc h0)]
    · intro h0
      dsimp only
      rw [if_pos h0]
    · dsimp only
      simp only [List.length_map]
      split_ifs with hc
      · simp only [reduceCtorEq, false_iff]
        push_neg
        exact hc
      · push_neg at hc
        constructor
        · intro _
          by_cases h21 : 21 ≤ bars.length
          · exact Or.inr (hc h21)
          · exact Or.inl (by omega)
        · intro _
          rfl
    · intro h21 hnz
      dsimp only
      simp only [List.length_map]
      rw [if_pos ⟨h21, hnz⟩]
    · dsimp only
      simp only [List.length_map]
      split_ifs with hc
      · simp only [reduceCtorEq, false_iff]
        push_neg
        exact hc
      · push_neg at hc
        constructor
        · intro _
          by_cases h63 : 63 ≤ bars.length
          · exact Or.inr (hc h63)
          · exact Or.inl (by omega)
        · intro _
          rfl
    · intro h63 hnz
      dsimp only
      simp only [List.length_map]
      rw [if_pos ⟨h63, hnz⟩]
    · dsimp only
      simp only [List.length_map]
      split_ifs with hc
      · simp only [reduceCtorEq, false_iff]
        push_neg
        exact hc
      · push_neg at hc
        constructor
        · intro _
          by_cases h126 : 126 ≤ bars.length
          · exact Or.inr (hc h126)
          · exact Or.inl (by omega)
        · intro _
          rfl
    · intro h126 hnz
      dsimp only
      simp only [List.length_map]
      rw [if_pos ⟨h126, hnz⟩]

/-- C6: for a ticker whose industry has a matching row in a non-empty
rotation table, quadrant classification returns exactly one of
Strong/Improving/Weakening/Weak, decided by comparing the first matching
row's cross-sectional weekly and monthly percentiles against 50 on each
axis (the 50/50 boundary is Strong); the result is absent when the table is
absent or empty, the profile or industry is unknown, or no row matches.
The final conjuncts exercise the 50/50 boundary concretely. -/
theorem C6_quadrant (db : DB) (t : String) :
    (get_industry_group_quadrant db t none = none) ∧
    (get_industry_group_quadrant db t (some []) = none) ∧
    (∀ table, db.get_company_profile t = none →
      get_industry_group_quadrant db t (some table) = none) ∧
    (∀ table p, db.get_company_profile t = some p → p.industry = none →
      get_industry_group_quadrant db t (some table) = none) ∧
    (∀ table p, db.get_company_profile t = some p → p.industry = some ("") →
      get_industry_group_quadrant db t (some table) = none) ∧
    (∀ table p ind, db.get_company_profile t = some p → p.industry = some ind →
      (table.filter fun r => r.industry == ind) = [] →
      get_industry_group_quadrant db t (some table) = none) ∧
    (∀ table p ind row rest, db.get_company_profile t = some p →
      p.industry = some ind → ind ≠ "" →
      (table.filter fun r => r.industry == ind) = row :: rest →
      ∃ q, get_industry_group_quadrant db t (some table) = some q ∧
        ((q = Quadrant.Strong) ↔
          50 ≤ weeklyPct table row.weekly_rs ∧ 50 ≤ monthlyPct table row.monthly_rs) ∧
        ((q = Quadrant.Improving) ↔
          50 ≤ weeklyPct table row.weekly_rs ∧ monthlyPct table row.monthly_rs < 50) ∧
        ((q = Quadrant.Weakening) ↔
          weeklyPct table row.weekly_rs < 50 ∧ 50 ≤ monthlyPct table row.monthly_rs) ∧
        ((q = Quadrant.Weak) ↔
          weeklyPct table row.weekly_rs < 50 ∧ monthlyPct table row.monthly_rs < 50)) ∧
    get_industry_group_quadrant dbQ ("T") (some tableQ) = some Quadrant.Strong ∧
    weeklyPct tableQ 1 = 50 ∧ monthlyPct tableQ 1 = 50 := by
  refine ⟨rfl, rfl, ?_, ?_, ?_, ?_, ?_, ?_, ?_, ?_⟩
  · intro table hp
    unfold get_industry_group_quadrant
    rw [hp]
    dsimp only
    split_ifs <;> rfl
  · intro table p hp hind
    unfold get_industry_group_quadrant
    rw [hp]
    dsimp only
    rw [hind]
    dsimp only
    split_ifs <;> rfl
  · intro table p hp hind
    unfold get_industry_group_quadrant
    rw [hp]
    dsimp only
    rw [hind]
    dsimp only
    split_ifs <;> first | rfl | (exfalso; simp_all)
  · intro table p ind hp hind hfil
    unfold get_industry_group_quadrant
    rw [hp]
    dsimp only
    rw [hind]
    dsimp only
    rw [hfil]
    split_ifs <;> rfl
  · intro table p ind row rest hp hind hne hfil
    have htne : ¬ table.length = 0 := by
      intro h0
      rw [List.length_eq_zero] at h0
      rw [h0] at hfil
      exact List.noConfusion hfil
    unfold get_industry_group_quadrant
    rw [hp]
    dsimp only
    rw [if_neg htne, hind]
    dsimp only
    rw [if_neg hne, hfil]
    dsimp only
    by_cases hw : 50 ≤ weeklyPct table row.weekly_rs <;>
      by_cases hm : 50 ≤ monthlyPct table row.monthly_rs
    · refine ⟨Quadrant.Strong, by rw [if_pos ⟨hw, hm⟩], ?_, ?_, ?_, ?_⟩ <;>
        simp [hw, hm, not_lt.mpr hw, not_lt.mpr hm]
    · refine ⟨Quadrant.Improving,
        by rw [if_neg (fun hc => hm hc.2), if_pos hw], ?_, ?_, ?_, ?_⟩ <;>
        simp [hw, not_le.mp hm, not_lt.mpr hw]
    · refine ⟨Quadrant.Weakening,
        by rw [if_neg (fun hc => hw hc.1), if_neg hw, if_pos hm], ?_, ?_, ?_, ?_⟩ <;>
        simp [hm, not_le.mp hw, not_lt.mpr hm]
    · refine ⟨Quadrant.Weak,
        by rw [if_neg (fun hc => hw hc.1), if_neg hw, if_neg hm], ?_, ?_, ?_, ?_⟩ <;>
        simp [not_le.mp hw, not_le.mp hm]
  · with_unfolding_all rfl
  · with_unfolding_all rfl
  · with_unfolding_all rfl

/-- C9: every screener is deterministic in the data-access snapshot — two
snapshots that agree on every lookup (same tickers, price histories,
ratings, profiles, EPS tables, with the same iteration order) produce
identical ordered result lists for all six screeners. -/
theorem C9_determinism (db1 db2 : DB)
    (h1 : db1.price_history = db2.price_history)
    (h2 : db1.all_tickers = db2.all_tickers)
    (h3 : db1.get_rating = db2.get_rating)
    (h4 : db1.all_ratings = db2.all_ratings)
    (h5 : db1.get_company_profile = db2.get_company_profile)
    (h6 : db1.eps_components = db2.eps_components) :
    screener_momentum_97 db1 = screener_momentum_97 db2 ∧
    screener_explosive_eps_growth db1 = screener_explosive_eps_growth db2 ∧
    screener_up_on_volume db1 = screener_up_on_volume db2 ∧
    screener_top_2_percent_rs db1 = screener_top_2_percent_rs db2 ∧
    screener_4_percent_bullish_yesterday db1 = screener_4_percent_bullish_yesterday db2 ∧
    screener_healthy_chart_watchlist db1 = screener_healthy_chart_watchlist db2 := by
  cases db1
  cases db2
  dsimp only at h1 h2 h3 h4 h5 h6
  subst h1 h2 h3 h4 h5 h6
  exact ⟨rfl, rfl, rfl, rfl, rfl, rfl⟩

/-- C9 witness: two runs on the same (empty) snapshot agree. -/
theorem C9_witness :
    screener_momentum_97 emptyDB = screener_momentum_97 emptyDB ∧
    screener_explosive_eps_growth emptyDB = screener_explosive_eps_growth emptyDB ∧
    screener_up_on_volume emptyDB = screener_up_on_volume emptyDB ∧
    screener_top_2_percent_rs emptyDB = screener_top_2_percent_rs emptyDB ∧
    screener_4_percent_bullish_yesterday emptyDB = screener_4_percent_bullish_yesterday emptyDB ∧
    screener_healthy_chart_watchlist emptyDB = screener_healthy_chart_watchlist emptyDB :=
  C9_determinism emptyDB emptyDB rfl rfl rfl rfl rfl rfl

/-- C1 counterexample: in the Top 2% RS screener a ticker whose company
profile is absent is NOT excluded — `dbC1`'s only ticker has no profile yet
appears in the result, so absence of the profile resolves to a pass of the
sector-exclusion predicate. -/
theorem C1_counterexample :
    dbC1.get_company_profile ("T") = none ∧
      screener_top_2_percent_rs dbC1 = [("T")] :=
  ⟨rfl, by with_unfolding_all rfl⟩

/-- C1 amended: a ticker is in the Top 2% RS result exactly when its rating
row exists with rs_rating ≥ 98, its RS STS% is present and ≥ 80, its moving
averages are present with MA10 > MA21 > MA50, its volume metrics are
present with both thresholds met — absence of any of these lookups fails
the ticker — and, only whenever a company profile IS present, its sector
contains neither "healthcare" nor "medical"; an absent profile passes the
sector check. -/
theorem C1_lookup_absence (db : DB) (t : String) :
    t ∈ screener_top_2_percent_rs db ↔
      ∃ r, (t, r) ∈ db.all_ratings ∧
        (∃ x, r.rs_rating = some x ∧ 98 ≤ x) ∧
        (∃ s, get_rs_sts_percentile db t ("SPY") = some s ∧ 80 ≤ s) ∧
        (∃ ma, get_moving_averages db t = some ma ∧
          ∃ x y z, ma.ma10 = some x ∧ ma.ma21 = some y ∧ ma.ma50 = some z ∧
            y < x ∧ z < y) ∧
        (∃ vm, get_volume_metrics db t = some vm ∧
          100 ≤ vm.avg_vol_50 ∧ 100 ≤ vm.current_volume) ∧
        (∀ p, db.get_company_profile t = some p →
          containsStr ((p.sector.getD ("")).toLower) ("healthcare") = false ∧
          containsStr ((p.sector.getD ("")).toLower) ("medical") = false) := by
  unfold screener_top_2_percent_rs
  rw [mem_screenerList]
  refine exists_congr fun r => and_congr_right fun _ => ?_
  simp only [top2Pred, Bool.and_eq_true, optGe_eq_true, onSome_eq_true,
    maGt3_eq_true, top2SectorOk_eq_true, Bool.and_eq_true, decide_eq_true_eq,
    and_assoc]

/-- The ticker of a present `performance_data` entry is the queried one. -/
theorem momEntry_fst {db : DB} {t : String} {x : String × ℚ × ℚ × ℚ}
    (h : momEntry db t = some x) : x.1 = t := by
  unfold momEntry at h
  rcases hpm : get_price_metrics db t with _ | pm <;> rw [hpm] at h <;>
    dsimp only at h
  · cases h
  · rcases h1 : pm.pct_1m with _ | a <;> rcases h3 : pm.pct_3m with _ | b <;>
      rcases h6 : pm.pct_6m with _ | c <;> rw [h1, h3, h6] at h <;>
      dsimp only at h <;> cases h <;> rfl

/-- A `performance_data` entry exists exactly when all three changes do. -/
theorem momEntry_isSome_iff {db : DB} {t : String} :
    (∃ x, momEntry db t = some x) ↔
      ∃ pm a b c, get_price_metrics db t = some pm ∧ pm.pct_1m = some a ∧
        pm.pct_3m = some b ∧ pm.pct_6m = some c := by
  unfold momEntry
  rcases hpm : get_price_metrics db t with _ | pm <;> dsimp only
  · simp
  · rcases h1 : pm.pct_1m with _ | a <;> rcases h3 : pm.pct_3m with _ | b <;>
      rcases h6 : pm.pct_6m with _ | c <;> dsimp only <;> simp_all

/-- Membership in the ranked universe of Momentum 97. -/
theorem mem_momTickers {db : DB} {t : String} :
    (t ∈ (momEntries db).map fun x => x.1) ↔
      t ∈ db.all_tickers ∧
        ∃ pm a b c, get_price_metrics db t = some pm ∧ pm.pct_1m = some a ∧
          pm.pct_3m = some b ∧ pm.pct_6m = some c := by
  simp only [momEntries, List.mem_map, List.mem_filterMap]
  constructor
  · rintro ⟨x, ⟨s, hs, hf⟩, hx1⟩
    have hfst := momEntry_fst hf
    rw [hfst] at hx1
    subst hx1
    exact ⟨hs, momEntry_isSome_iff.mp ⟨x, hf⟩⟩
  · rintro ⟨ht, pm, a, b, c, hpm, h1, h3, h6⟩
    refine ⟨(t, a, b, c), ⟨t, ht, ?_⟩, rfl⟩
    unfold momEntry
    rw [hpm]
    dsimp only
    rw [h1, h3, h6]

/-- C4: a ticker is in the Momentum 97 result exactly when it is in the
universe with all three of the 1M/3M/6M changes present and each of its
three percentile ranks — `(rank_index+1)/total*100` over a stable ascending
sort of tickers with all three metrics present — is at least 97; a ticker
missing any metric is excluded from ranking entirely; ranks of 100 on all
three imply inclusion, and a rank of at most 96 on any one metric implies
exclusion.  In the concrete two-ticker universe, B (ranks 100/100/100) is
the exact result while A (rank 50) is excluded.  (The `Nodup` hypothesis
mirrors the source's dict keyed by ticker.) -/
theorem C4_momentum_97 :
    (∀ (db : DB) (t : String), db.all_tickers.Nodup →
      (t ∈ screener_momentum_97 db ↔
        (t ∈ (momEntries db).map fun x => x.1) ∧
        97 ≤ momRank1m db t ∧ 97 ≤ momRank3m db t ∧ 97 ≤ momRank6m db t) ∧
      ((t ∈ (momEntries db).map fun x => x.1) ↔
        t ∈ db.all_tickers ∧
          ∃ pm a b c, get_price_metrics db t = some pm ∧ pm.pct_1m = some a ∧
            pm.pct_3m = some b ∧ pm.pct_6m = some c) ∧
      ((t ∈ (momEntries db).map fun x => x.1) → momRank1m db t = 100 →
        momRank3m db t = 100 → momRank6m db t = 100 → t ∈ screener_momentum_97 db) ∧
      ((momRank1m db t ≤ 96 ∨ momRank3m db t ≤ 96 ∨ momRank6m db t ≤ 96) →
        t ∉ screener_momentum_97 db)) ∧
    screener_momentum_97 dbMom = [("B")] ∧
    momRank1m dbMom ("B") = 100 ∧ momRank3m dbMom ("B") = 100 ∧
    momRank6m dbMom ("B") = 100 ∧ momRank1m dbMom ("A") = 50 := by
  have hiff : ∀ (db : DB) (t : String),
      t ∈ screener_momentum_97 db ↔
        (t ∈ (momEntries db).map fun x => x.1) ∧
        97 ≤ momRank1m db t ∧ 97 ≤ momRank3m db t ∧ 97 ≤ momRank6m db t := by
    intro db t
    unfold screener_momentum_97
    simp [List.mem_filter, Bool.and_eq_true, decide_eq_true_eq, and_assoc]
  refine ⟨fun db t _ => ⟨hiff db t, mem_momTickers, ?_, ?_⟩, ?_, ?_, ?_, ?_, ?_⟩
  · intro hm h1 h3 h6
    exact (hiff db t).mpr ⟨hm, by rw [h1]; norm_num, by rw [h3]; norm_num,
      by rw [h6]; norm_num⟩
  · intro hlow hmem
    rcases (hiff db t).mp hmem with ⟨_, r1, r3, r6⟩
    rcases hlow with h | h | h <;> linarith
  · with_unfolding_all rfl
  · with_unfolding_all rfl
  · with_unfolding_all rfl
  · with_unfolding_all rfl
  · with_unfolding_all rfl

/-- C7: a ticker passes Up on Volume exactly when its rating row exists and
rs_rating ≥ 80, RS STS% present and ≥ 80, ad_rating ∈ {A,B,C}, the price
metrics are present with 1-day change ≥ 0 and price ≥ $10, the volume
metrics are present with 50-day average ≥ 100k and volume change ≥ 20%, the
profile is present with market cap ≥ $250M, and the EPS growth is present
and ≥ 20%.  In the concrete three-ticker universe A passes every condition
(price $12, +1% day change, 150k average volume, +25% volume change,
RS STS% 84) while B and C fail the RS Rating test, and the result is
exactly `[A]`. -/
theorem C7_up_on_volume :
    (∀ (db : DB) (t : String),
      t ∈ screener_up_on_volume db ↔
        ∃ r, (t, r) ∈ db.all_ratings ∧
          (∃ x, r.rs_rating = some x ∧ 80 ≤ x) ∧
          (∃ s, get_rs_sts_percentile db t ("SPY") = some s ∧ 80 ≤ s) ∧
          (∃ a, r.ad_rating = some a ∧ (a = ("A") ∨ a = ("B") ∨ a = ("C"))) ∧
          (∃ pm, get_price_metrics db t = some pm ∧
            0 ≤ pm.pct_change_1d ∧ 10 ≤ pm.price) ∧
          (∃ vm, get_volume_metrics db t = some vm ∧
            100 ≤ vm.avg_vol_50 ∧ 20 ≤ vm.vol_change_pct) ∧
          (∃ p, db.get_company_profile t = some p ∧
            ∃ mc, p.market_cap = some mc ∧ 250 ≤ mc / 1000000) ∧
          (∃ e, db.eps_components t = some e ∧
            ∃ g, e.eps_growth_last_qtr = some g ∧ 20 ≤ g)) ∧
    screener_up_on_volume dbUp = [("A")] ∧
    get_rs_sts_percentile dbUp ("A") ("SPY") = some 84 ∧
    (get_price_metrics dbUp ("A")).map PriceMetrics.price = some 12 ∧
    (get_price_metrics dbUp ("A")).map PriceMetrics.pct_change_1d = some 1 ∧
    (get_volume_metrics dbUp ("A")).map VolumeMetrics.avg_vol_50 = some 150 ∧
    (get_volume_metrics dbUp ("A")).map VolumeMetrics.vol_change_pct = some 25 := by
  refine ⟨?_, ?_, ?_, ?_, ?_, ?_, ?_⟩
  · intro db t
    unfold screener_up_on_volume
    rw [mem_screenerList]
    refine exists_congr fun r => and_congr_right fun _ => ?_
    simp only [upOnVolumePred, Bool.and_eq_true, optGe_eq_true, onSome_eq_true,
      decide_eq_true_eq, List.mem_cons, List.mem_singleton, List.not_mem_nil,
      or_false, and_assoc]
  · with_unfolding_all rfl
  · with_unfolding_all rfl
  · with_unfolding_all rfl
  · with_unfolding_all rfl
  · with_unfolding_all rfl
  · with_unfolding_all rfl

end IBD
